import Mathlib

/-!
Shallow embedding of the incremental fetch/checkpoint subsystem of the
us-census-bureau connector: catalog discovery (catalog.py), variable
discovery (variables.py), the generic data fetcher (data_fetcher.py) and
the time-series fetchers (acs.py, population.py, poverty.py).

JSON table cells are modelled as `Option String` (`none` is JSON null).
Python float() and int() are modelled on their decimal-literal fragments
(optional sign, digits, fractional part, exponent), returning exact
rationals/integers; whitespace stripping, underscores, inf and nan are not
modelled (none of the relevant call sites feed such inputs).
-/

namespace Census

/-- A JSON table cell: `none` models JSON null, `some s` a string. -/
abbrev Cell := Option String

/-- Python truthiness of a cell: None and the empty string are falsy. -/
def cellTruthy : Cell → Bool
  | none => false
  | some s => s != ""

/-- Numeric value of a list of decimal digit characters. -/
def digitsVal (l : List Char) : ℕ :=
  l.foldl (fun a c => a * 10 + (c.toNat - '0'.toNat)) 0

/-- Parse an optional leading sign; returns (isNegative, rest). -/
def parseSign : List Char → Bool × List Char
  | '-' :: rest => (true, rest)
  | '+' :: rest => (false, rest)
  | l => (false, l)

/-- Parse a decimal mantissa `digits`, `digits.digits`, `digits.` or
`.digits` (at least one digit in total) into an exact rational, built
with `mkRat` so that the value kernel-reduces. -/
def parseMantissa (l : List Char) : Option ℚ :=
  let p := l.span Char.isDigit
  match p.2 with
  | [] => if p.1.isEmpty then none else some (mkRat (Int.ofNat (digitsVal p.1)) 1)
  | '.' :: rest2 =>
    let q := rest2.span Char.isDigit
    if q.2.isEmpty && !(p.1.isEmpty && q.1.isEmpty) then
      some (mkRat (Int.ofNat (digitsVal p.1 * Nat.pow 10 q.1.length + digitsVal q.1))
        (Nat.pow 10 q.1.length))
    else none
  | _ => none

/-- Parse an exponent part: optional sign then at least one digit. -/
def parseExp (l : List Char) : Option ℤ :=
  let s := parseSign l
  let d := s.2.span Char.isDigit
  if d.2.isEmpty && !d.1.isEmpty then
    some (if s.1 then -(digitsVal d.1 : ℤ) else (digitsVal d.1 : ℤ))
  else none

/-- Split a literal at the first `e`/`E` into mantissa and exponent parts. -/
def splitExp (l : List Char) : List Char × Option (List Char) :=
  match l.span (fun c => !(c == 'e' || c == 'E')) with
  | (m, []) => (m, none)
  | (m, _ :: rest) => (m, some rest)

/-- Multiply a rational by a (possibly negative) power of ten, built with
`mkRat` so that the value kernel-reduces. -/
def mulPow10 (m : ℚ) : ℤ → ℚ
  | .ofNat n => mkRat (m.num * Int.ofNat (Nat.pow 10 n)) m.den
  | .negSucc n => mkRat m.num (m.den * Nat.pow 10 (n + 1))

/-- Models Python float() on the decimal-literal fragment: optional sign,
decimal mantissa, optional exponent; `none` models a ValueError.  The
result is the exact rational value of the literal. -/
def pyFloat? (s : String) : Option ℚ :=
  let sg := parseSign s.data
  let me := splitExp sg.2
  match parseMantissa me.1 with
  | none => none
  | some m =>
    match me.2 with
    | none => some (if sg.1 then -m else m)
    | some ep =>
      match parseExp ep with
      | none => none
      | some e => some (mulPow10 (if sg.1 then -m else m) e)

/-- The value_numeric computation of parse_api_response (data_fetcher.py
lines 99-105): None for falsy cells and for the sentinels
`null`/`N/A`/`-`, the parsed float otherwise, None again when the parse
raises (ValueError caught). -/
def pyNumeric (value : Cell) : Option ℚ :=
  match value with
  | none => none
  | some s =>
    if s != "" && !(["null", "N/A", "-"].contains s) then pyFloat? s else none

/-! ## data_fetcher.py: variable batching -/

/-- One entry of the discovered-variables table as consumed by
data_fetcher.py (only the fields the fetcher reads). -/
structure VarInfo where
  variable_name : String
  label : String
deriving DecidableEq, Repr

/-- MAX_VARS_PER_REQUEST from data_fetcher.py line 17. -/
def MAX_VARS_PER_REQUEST : ℕ := 50

/-- Loop body of build_variable_groups: `cur` is the current group being
filled; a group is emitted as soon as it reaches the cap. -/
def buildGroupsGo : List VarInfo → List String → List (List String)
  | [], cur => if cur.isEmpty then [] else [cur]
  | v :: vs, cur =>
    let cur2 := cur ++ [v.variable_name]
    if MAX_VARS_PER_REQUEST ≤ cur2.length then cur2 :: buildGroupsGo vs []
    else buildGroupsGo vs cur2

/-- build_variable_groups from data_fetcher.py lines 19-33. -/
def build_variable_groups (vars : List VarInfo) : List (List String) :=
  buildGroupsGo vars []

/-! ## data_fetcher.py: response parsing

A response is `List (List Cell)`: the first row is the header, the rest
are data rows.  Python raises IndexError on an out-of-range row access and
parse_api_response has no handler for it, so the embedding returns
`Option`: `none` models the raised IndexError. -/

/-- The header-to-index map `header_idx = {h: i for i, h in enumerate(headers)}`:
a Python dict comprehension keeps the LAST index for duplicate keys. -/
def headerIdx (headers : List Cell) (c : Cell) : Option ℕ :=
  ((headers.enum.filter (fun p => p.2 = c)).getLast?).map (·.1)

/-- Accumulator loop for `keysFirst`: `seen` holds the keys already kept. -/
def keysFirstGo {α : Type} [BEq α] : List α → List α → List α
  | _, [] => []
  | seen, x :: xs =>
    if seen.contains x then keysFirstGo seen xs
    else x :: keysFirstGo (x :: seen) xs

/-- The keys of a Python dict built by insertion: first-occurrence order,
duplicates dropped. -/
def keysFirst {α : Type} [BEq α] (l : List α) : List α :=
  keysFirstGo [] l

/-- The value stored in a Python dict built by insertion: the LAST write
for the key wins (`variable_map = {v[name]: v for v in variables}`). -/
def lookupLast (vars : List VarInfo) (name : String) : Option VarInfo :=
  ((vars.filter (fun v => v.variable_name == name)).getLast?)

/-- The fields of a dataset descriptor consumed by the data fetcher and
by the catalog sort and selection (process_catalog / process_data_fetcher). -/
structure Dataset where
  dataset_type : String
  dataset_path : String
  vintage : Option ℤ
  priority : ℤ
deriving DecidableEq, Repr

/-- One long-format Observation Record as built by parse_api_response.
For the geographic identifier fields, `none` models the key being absent
from the record (the column was not in the response), `some c` the cell
that was copied. -/
structure ObsRecord where
  dataset_type : String
  vintage : Option ℤ
  geography_name : Cell
  state_fips : Option Cell
  county_fips : Option Cell
  place_fips : Option Cell
  variableName : String
  value : Cell
  value_numeric : Option ℚ
  label : String
deriving DecidableEq, Repr

/-- Lookup of the optional geographic identifier column `k`: absent column
gives no field and touches no cell; a present column reads `row[idx]`,
which is `none` (IndexError) when the index is out of range. -/
def geoField (headers row : List Cell) (k : String) : Option (Option Cell) :=
  match headerIdx headers (some k) with
  | none => some none
  | some i => (row.get? i).map some

/-- The per-variable inner loop of parse_api_response (lines 88-107): one
record per requested variable name present in the header, in dict-key
order; a `none` result models an IndexError on `row[header_idx[var]]`. -/
def varRecords (info : Dataset) (vars : List VarInfo) (headers row : List Cell)
    (gName : Cell) (sF cF pF : Option Cell) : List String → Option (List ObsRecord)
  | [] => some []
  | k :: ks =>
    match headerIdx headers (some k) with
    | none => varRecords info vars headers row gName sF cF pF ks
    | some i =>
      match row.get? i with
      | none => none
      | some v =>
        match varRecords info vars headers row gName sF cF pF ks with
        | none => none
        | some rest =>
          some ({ dataset_type := info.dataset_type
                  vintage := info.vintage
                  geography_name := gName
                  state_fips := sF
                  county_fips := cF
                  place_fips := pF
                  variableName := k
                  value := v
                  value_numeric := pyNumeric v
                  label := ((lookupLast vars k).map (·.label)).getD "" } :: rest)

/-- Processing of one data row of parse_api_response (lines 72-107):
geography name, optional geographic identifiers, then one record per
requested variable found in the header. -/
def parseRow (info : Dataset) (vars : List VarInfo) (headers row : List Cell) :
    Option (List ObsRecord) :=
  match row.get? ((headerIdx headers (some "NAME")).getD 0) with
  | none => none
  | some gName =>
    match geoField headers row "state" with
    | none => none
    | some sF =>
      match geoField headers row "county" with
      | none => none
      | some cF =>
        match geoField headers row "place" with
        | none => none
        | some pF =>
          varRecords info vars headers row gName sF cF pF
            (keysFirst (vars.map (·.variable_name)))

/-- parse_api_response from data_fetcher.py lines 60-109.  A response with
fewer than two rows yields no records; otherwise each data row is
processed against the header row.  `none` models an uncaught IndexError
(there is no row-length validation in the source). -/
def parse_api_response (data : List (List Cell)) (info : Dataset)
    (vars : List VarInfo) : Option (List ObsRecord) :=
  match data with
  | [] => some []
  | [_] => some []
  | headers :: rows =>
    match rows.mapM (parseRow info vars headers) with
    | none => none
    | some recss => some recss.flatten

/-! ## catalog.py: dataset typing, inclusion and sort -/

/-- Contiguous-sublist test: does `pat` occur inside `l`? -/
def listInfixOf : List Char → List Char → Bool
  | pat, [] => pat.isEmpty
  | pat, c :: xs => pat.isPrefixOf (c :: xs) || listInfixOf pat xs

/-- Models `pat in s` on Python strings: contiguous substring test. -/
def strContains (s pat : String) : Bool :=
  listInfixOf pat.data s.data

/-- Models `s.startswith(pat)` on Python strings. -/
def pyStartsWith (s pat : String) : Bool :=
  pat.data.isPrefixOf s.data

/-- Models `s.endswith(pat)` on Python strings. -/
def pyEndsWith (s pat : String) : Bool :=
  pat.data.isSuffixOf s.data

/-- Models `s.lower()` (ASCII case folding, which covers every pattern in
the catalog tables). -/
def pyLower (s : String) : String :=
  ⟨s.data.map Char.toLower⟩

/-- A Python scalar as it can appear in catalog JSON fields such as
c_vintage: an integer or a string. -/
inductive PyVal where
  | pint (n : ℤ)
  | pstr (s : String)
deriving DecidableEq, Repr

/-- Python truthiness: 0 and the empty string are falsy. -/
def PyVal.truthy : PyVal → Bool
  | .pint n => n != 0
  | .pstr s => s != ""

/-- Models Python int() on the sign-and-digits fragment; `none` models a
raised ValueError (caught at the call site). -/
def pyInt? : PyVal → Option ℤ
  | .pint n => some n
  | .pstr s =>
    let sg := parseSign s.data
    let d := sg.2.span Char.isDigit
    if d.2.isEmpty && !d.1.isEmpty then
      some (if sg.1 then -(Int.ofNat (digitsVal d.1)) else Int.ofNat (digitsVal d.1))
    else none

/-- A raw catalog entry, restricted to the fields read by
extract_dataset_type and should_include_dataset.  `c_dataset = none`
models the key being absent or not a list; `c_isAvailable = none` models
the key being absent (default True). -/
structure RawDataset where
  c_dataset : Option (List String)
  c_vintage : Option PyVal
  c_isAvailable : Option Bool
deriving DecidableEq, Repr

/-- PRIORITY_DATASETS from catalog.py lines 10-71, in source order:
(pattern, min_year, priority). -/
def PRIORITY_DATASETS : List (String × ℤ × ℤ) :=
  [("acs", 2010, 1), ("cbp", 2010, 1), ("pep", 2010, 1), ("zbp", 2010, 2),
   ("ase", 2014, 2), ("abscs", 2017, 2), ("bdstimeseries", 2010, 2),
   ("intltrade", 2013, 1), ("sahie", 2010, 2), ("saipe", 2010, 1),
   ("ecnbasic", 2017, 1), ("bps", 2010, 1)]

/-- The min_year configured for a pattern (PRIORITY_DATASETS[t][min_year];
only ever queried for keys of the table). -/
def minYearOf (t : String) : ℤ :=
  ((PRIORITY_DATASETS.find? (fun p => p.1 == t)).map (fun p => p.2.1)).getD 0

/-- extract_dataset_type from catalog.py lines 73-83: join the c_dataset
parts with a slash and return the first priority pattern that occurs in
the lowercased path, together with the path. -/
def extract_dataset_type (d : RawDataset) : Option (String × String) :=
  match d.c_dataset with
  | none => none
  | some parts =>
    let dataset_path := String.intercalate "/" parts
    match PRIORITY_DATASETS.find? (fun p => strContains (pyLower dataset_path) p.1) with
    | some p => some (p.1, dataset_path)
    | none => none

/-- The vintage check of should_include_dataset (catalog.py lines
92-101): only a truthy, int-parseable vintage is compared against the
pattern's min_year; an unparseable vintage passes the check
(ValueError/TypeError caught), and a falsy vintage (absent, 0 or "")
skips it entirely. -/
def vintage_ok (t : String) (cv : Option PyVal) : Bool :=
  match cv with
  | none => true
  | some v =>
    if v.truthy then
      match pyInt? v with
      | some year => decide (minYearOf t ≤ year)
      | none => true
    else true

/-- should_include_dataset from catalog.py lines 85-107: a typed entry is
kept unless its vintage check fails or the availability flag (default
True) is false. -/
def should_include_dataset (d : RawDataset) : Bool :=
  match extract_dataset_type d with
  | none => false
  | some (dataset_type, _) =>
    vintage_ok dataset_type d.c_vintage && d.c_isAvailable.getD true

/-- The sort key of process_catalog line 166 and process_data_fetcher
line 158: `(priority, -vintage if vintage truthy else 0)`. -/
def sortKey (d : Dataset) : ℤ × ℤ :=
  (d.priority,
   match d.vintage with
   | some v => if v != 0 then -v else 0
   | none => 0)

/-- Lexicographic comparison of sort keys, as Python compares tuples. -/
def keyLe (a b : Dataset) : Bool :=
  decide ((sortKey a).1 < (sortKey b).1 ∨
    ((sortKey a).1 = (sortKey b).1 ∧ (sortKey a).2 ≤ (sortKey b).2))

/-- The stable sort `datasets.sort(key=...)` of process_catalog line 166
(and process_data_fetcher line 158): Python list.sort is a stable sort by
the key, modelled by the stable `List.mergeSort`. -/
def sortCatalog (l : List Dataset) : List Dataset :=
  l.mergeSort keyLe

/-! ## data_fetcher.py: dataset selection (process_data_fetcher 156-170) -/

/-- Selection loop of process_data_fetcher lines 164-170: walk the sorted
catalog, keep the first dataset of each not-yet-seen type, and stop as
soon as ten datasets are kept. -/
def selectGo : List Dataset → List String → ℕ → List Dataset
  | [], _, _ => []
  | d :: ds, seen, n =>
    if seen.contains d.dataset_type then selectGo ds seen n
    else if 10 ≤ n + 1 then [d]
    else d :: selectGo ds (d.dataset_type :: seen) (n + 1)

/-- The datasets_to_process list computed by process_data_fetcher from the
catalog: sort by (priority, -vintage), then first-of-each-type capped at
ten. -/
def datasets_to_process (catalog : List Dataset) : List Dataset :=
  selectGo (sortCatalog catalog) [] 0

/-- First-of-each-type filter (no cap), used to state what the selection
loop computes. -/
def dedupByType : List Dataset → List String → List Dataset
  | [], _ => []
  | d :: ds, seen =>
    if seen.contains d.dataset_type then dedupByType ds seen
    else d :: dedupByType ds (d.dataset_type :: seen)

/-! ## variables.py: priority-variable filtering -/

/-- PRIORITY_VARIABLES from variables.py lines 8-69: dataset type to the
list of its table codes, in source order. -/
def PRIORITY_VARIABLES : List (String × List String) :=
  [("acs", ["B01001", "B02001", "B03001", "B19013", "B19001", "B17001",
            "B22001", "B25001", "B25077", "B25003", "B25061", "B23025",
            "B24010", "B08301", "B08303", "B15003", "B14001"]),
   ("cbp", ["EMP", "PAYANN", "ESTAB", "EMPSZES", "PAYQTR1"]),
   ("pep", ["POP", "DENSITY", "BIRTHS", "DEATHS", "NATURALINC",
            "INTERNATIONALMIG", "DOMESTICMIG"]),
   ("saipe", ["SAEPOVRTALL_PT", "SAEPOVRT0_17_PT", "SAEMHI_PT"]),
   ("sahie", ["NIC_PT", "NIPR_PT", "NUI_PT"]),
   ("intltrade", ["IMPVAL", "EXPVAL", "BALANCE"])]

/-- The configured priority-variable table for a dataset type, if any. -/
def tableOf (t : String) : Option (List String) :=
  (PRIORITY_VARIABLES.find? (fun p => p.1 == t)).map (fun p => p.2)

/-- The broad-inclusion dataset types of variables.py line 88. -/
def BROAD_TYPES : List String := ["cbp", "pep", "zbp", "bps"]

/-- The reserved geography/control tokens of variables.py line 89. -/
def CONTROL_TOKENS : List String := ["for", "in", "ucgid"]

/-- is_priority_variable from variables.py lines 71-91. -/
def is_priority_variable (dataset_type var_name : String) : Bool :=
  match tableOf dataset_type with
  | none => true
  | some priorities =>
    if priorities.contains var_name then true
    else if priorities.any (fun c => pyStartsWith var_name c) then true
    else if BROAD_TYPES.contains dataset_type then
      !pyStartsWith var_name "NAME" && !CONTROL_TOKENS.contains var_name
    else false

/-! ## Time-series fetchers (population.py, poverty.py, acs.py)

The HTTP layer is an oracle passed in as a function.  For population and
poverty the fetch helper swallows every exception and returns None on
failure, so the oracle returns `Option`; for acs the exception (with its
message, inspected for a "404" substring) escapes to the year/table
handler, so the oracle returns `Except String`.  Raised Python exceptions
inside row processing are `Except String` errors; a ValueError from
float() carries the value in its message as CPython does. -/

/-- The value stored under key `k` in `dict(zip(headers, row))`: zip
truncates to the shorter list; for duplicate keys the later pair wins.
`none` means the key is absent from the dict. -/
def dictLast (headers row : List Cell) (k : Cell) : Option Cell :=
  (((headers.zip row).filter (fun p => p.1 == k)).getLast?).map (fun p => p.2)

/-- `dictLast` at a string key. -/
def pyDictGet (headers row : List Cell) (k : String) : Option Cell :=
  dictLast headers row (some k)

/-- `row_dict.get(k)` (default None): an absent key and a null value both
give None. -/
def dictCell (headers row : List Cell) (k : String) : Cell :=
  match pyDictGet headers row k with
  | none => none
  | some c => c

/-- `row_dict.get(k, "")`. -/
def dictCellD (headers row : List Cell) (k : String) : Cell :=
  match pyDictGet headers row k with
  | none => some ""
  | some c => c

/-- Models `float(cell)` where the result may raise: ValueError on an
unparseable string (message contains the value, as in CPython), TypeError
on None. -/
def pyFloatE (c : Cell) : Except String ℚ :=
  match c with
  | none => .error "TypeError: float() argument must be a string or a real number, not NoneType"
  | some s =>
    match pyFloat? s with
    | some q => .ok q
    | none => .error ("ValueError: could not convert string to float: " ++ s)

/-- A sentinel-guarded measure, the shared shape of population.py lines
61-62 and poverty.py lines 61-62: None unless the cell is truthy and
differs from the sentinel, otherwise float(cell), which may raise. -/
def guardedMeasure (headers row : List Cell) (k sentinel : String) :
    Except String (Option ℚ) :=
  let v := dictCell headers row k
  if cellTruthy v && v != some sentinel then (pyFloatE v).map some
  else .ok none

/-- Python range(a, b). -/
def pyRange (a b : ℕ) : List ℕ :=
  List.range' a (b - a)

/-- Run state of a time-series fetcher: the records accumulated so far
and the last value written to the checkpoint store in this run (`none`
until the first save_state call). -/
structure TsState (R : Type) where
  records : List R
  watermark : Option ℕ
deriving DecidableEq, Repr

/-- One record of process_population lines 56-63. -/
structure PopRecord where
  year : ℕ
  dataset : String
  state_fips : Cell
  state_name : Cell
  population : Option ℚ
  population_density : Option ℚ
deriving DecidableEq, Repr

/-- Record construction of process_population lines 56-64: the POP
measure is evaluated before DENSITY, either may raise. -/
def popBuildRecord (year : ℕ) (headers row : List Cell) :
    Except String PopRecord := do
  let pop ← guardedMeasure headers row "POP" "-"
  let dens ← guardedMeasure headers row "DENSITY" "-"
  return { year := year, dataset := "population_estimates",
           state_fips := dictCellD headers row "state",
           state_name := dictCellD headers row "NAME",
           population := pop, population_density := dens }

/-- The row loop of process_population lines 52-64: rows whose length
differs from the header are skipped; a raising row aborts the loop,
keeping the records already appended (the exception propagates to the
year handler).  The Bool is true iff the loop raised. -/
def popRowsLoop (year : ℕ) (headers : List Cell) :
    List (List Cell) → List PopRecord × Bool
  | [] => ([], false)
  | row :: rows =>
    if row.length == headers.length then
      match popBuildRecord year headers row with
      | .ok r =>
        let rest := popRowsLoop year headers rows
        (r :: rest.1, rest.2)
      | .error _ => ([], true)
    else popRowsLoop year headers rows

/-- One year of process_population lines 46-71: a failed fetch (None) or
a short response leaves the state unchanged; otherwise rows are
normalized and appended, and the watermark is saved only when the row
loop did not raise. -/
def popYearStep (fetch : ℕ → Option (List (List Cell)))
    (st : TsState PopRecord) (year : ℕ) : TsState PopRecord :=
  match fetch year with
  | none => st
  | some data =>
    match data with
    | [] => st
    | headers :: rows =>
      if rows.isEmpty then st
      else
        let res := popRowsLoop year headers rows
        if res.2 then { st with records := st.records ++ res.1 }
        else { records := st.records ++ res.1, watermark := some year }

/-- process_population from population.py lines 39-76, over the year
range last_year+1 .. current_year-1. -/
def process_population (fetch : ℕ → Option (List (List Cell)))
    (last_year current_year : ℕ) : TsState PopRecord :=
  (pyRange (last_year + 1) current_year).foldl (popYearStep fetch) ⟨[], none⟩

/-- A population year succeeds when the fetch returns a table with data
rows and no row raises. -/
def popYearOk (fetch : ℕ → Option (List (List Cell))) (year : ℕ) : Bool :=
  match fetch year with
  | none => false
  | some data =>
    match data with
    | [] => false
    | headers :: rows => !rows.isEmpty && !(popRowsLoop year headers rows).2

/-- One record of process_poverty lines 56-63. -/
structure PovRecord where
  year : ℕ
  dataset : String
  state_fips : Cell
  state_name : Cell
  poverty_rate_all_ages : Option ℚ
  median_household_income : Option ℚ
deriving DecidableEq, Repr

/-- Record construction of process_poverty lines 56-64: the poverty-rate
measure is evaluated before the income measure; the not-available
sentinel of this family is ".". -/
def povBuildRecord (year : ℕ) (headers row : List Cell) :
    Except String PovRecord := do
  let rate ← guardedMeasure headers row "SAEPOVRTALL_PT" "."
  let mhi ← guardedMeasure headers row "SAEMHI_PT" "."
  return { year := year, dataset := "saipe",
           state_fips := dictCellD headers row "state",
           state_name := dictCellD headers row "NAME",
           poverty_rate_all_ages := rate, median_household_income := mhi }

/-- The row loop of process_poverty lines 52-64 (same shape as
population): skipped length-mismatched rows, abort-keeping-prefix on a
raise. -/
def povRowsLoop (year : ℕ) (headers : List Cell) :
    List (List Cell) → List PovRecord × Bool
  | [] => ([], false)
  | row :: rows =>
    if row.length == headers.length then
      match povBuildRecord year headers row with
      | .ok r =>
        let rest := povRowsLoop year headers rows
        (r :: rest.1, rest.2)
      | .error _ => ([], true)
    else povRowsLoop year headers rows

/-- One year of process_poverty lines 46-71. -/
def povYearStep (fetch : ℕ → Option (List (List Cell)))
    (st : TsState PovRecord) (year : ℕ) : TsState PovRecord :=
  match fetch year with
  | none => st
  | some data =>
    match data with
    | [] => st
    | headers :: rows =>
      if rows.isEmpty then st
      else
        let res := povRowsLoop year headers rows
        if res.2 then { st with records := st.records ++ res.1 }
        else { records := st.records ++ res.1, watermark := some year }

/-- process_poverty from poverty.py lines 39-76. -/
def process_poverty (fetch : ℕ → Option (List (List Cell)))
    (last_year current_year : ℕ) : TsState PovRecord :=
  (pyRange (last_year + 1) current_year).foldl (povYearStep fetch) ⟨[], none⟩

/-- A poverty year succeeds when the fetch returns a table with data rows
and no row raises. -/
def povYearOk (fetch : ℕ → Option (List (List Cell))) (year : ℕ) : Bool :=
  match fetch year with
  | none => false
  | some data =>
    match data with
    | [] => false
    | headers :: rows => !rows.isEmpty && !(povRowsLoop year headers rows).2

/-! ### acs.py -/

/-- ACS_TABLES from acs.py lines 10-16, in source order. -/
def ACS_TABLES : List (String × String) :=
  [("B01003", "Total Population"), ("B25001", "Housing Units"),
   ("B19013", "Median Household Income"), ("B15003", "Educational Attainment"),
   ("B08303", "Travel Time to Work")]

/-- One record of process_acs lines 58-67. -/
structure AcsRecord where
  year : ℕ
  dataset : String
  table_id : String
  table_name : String
  state_fips : Cell
  state_name : Cell
  variableName : String
  estimate : Option ℚ
deriving DecidableEq, Repr

/-- The items of dict(zip(headers, row)): keys in first-occurrence order,
each carrying the last value written for that key. -/
def dictItems (headers row : List Cell) : List (Cell × Cell) :=
  let pairs := headers.zip row
  (keysFirst (pairs.map (fun p => p.1))).map
    (fun k => (k, (dictLast headers row k).getD none))

/-- One item of the acs inner loop (acs.py lines 56-68): skipped unless
the key starts with the table id and ends in "E"; building the record can
raise in float(value); a None key raises in key.startswith. -/
def acsItemRecord (year : ℕ) (tid tname : String) (headers row : List Cell)
    (k v : Cell) : Except String (Option AcsRecord) :=
  match k with
  | none => .error "AttributeError: NoneType object has no attribute startswith"
  | some ks =>
    if pyStartsWith ks tid && pyEndsWith ks "E" then
      match (if cellTruthy v && v != some "-" then (pyFloatE v).map some
             else .ok none) with
      | .error e => .error e
      | .ok est =>
        .ok (some { year := year, dataset := "acs5", table_id := tid,
                    table_name := tname,
                    state_fips := dictCellD headers row "state",
                    state_name := dictCellD headers row "NAME",
                    variableName := ks, estimate := est })
    else .ok none

/-- The item loop over one acs row: records built before a raise are
kept (they were already appended to the shared list). -/
def acsItemsLoop (year : ℕ) (tid tname : String) (headers row : List Cell) :
    List (Cell × Cell) → List AcsRecord × Option String
  | [] => ([], none)
  | (k, v) :: rest =>
    match acsItemRecord year tid tname headers row k v with
    | .error e => ([], some e)
    | .ok none => acsItemsLoop year tid tname headers row rest
    | .ok (some r) =>
      let res := acsItemsLoop year tid tname headers row rest
      (r :: res.1, res.2)

/-- The row loop of process_acs lines 51-68: only rows matching the
header length are processed; a raise aborts the remaining rows, keeping
the records appended so far. -/
def acsRowsLoop (year : ℕ) (tid tname : String) (headers : List Cell) :
    List (List Cell) → List AcsRecord × Option String
  | [] => ([], none)
  | row :: rows =>
    if row.length == headers.length then
      let res := acsItemsLoop year tid tname headers row (dictItems headers row)
      match res.2 with
      | some e => (res.1, some e)
      | none =>
        let res2 := acsRowsLoop year tid tname headers rows
        (res.1 ++ res2.1, res2.2)
    else acsRowsLoop year tid tname headers rows

/-- One (year, table) unit of process_acs lines 45-68: a fetch error is
the raised exception; a short response contributes nothing. -/
def acsTableStep (fetch : ℕ → String → Except String (List (List Cell)))
    (year : ℕ) (tid tname : String) : List AcsRecord × Option String :=
  match fetch year tid with
  | .error e => ([], some e)
  | .ok data =>
    match data with
    | [] => ([], none)
    | [_] => ([], none)
    | headers :: rows => acsRowsLoop year tid tname headers rows

/-- The table loop of process_acs lines 44-74: an error whose message
contains "404" breaks out of the TABLE loop (remaining tables of this
year are skipped); any other error skips to the next table. -/
def acsTablesLoop (fetch : ℕ → String → Except String (List (List Cell)))
    (year : ℕ) : List (String × String) → List AcsRecord
  | [] => []
  | (tid, tname) :: rest =>
    let res := acsTableStep fetch year tid tname
    match res.2 with
    | some e =>
      if strContains e "404" then res.1
      else res.1 ++ acsTablesLoop fetch year rest
    | none => res.1 ++ acsTablesLoop fetch year rest

/-- One year of process_acs lines 43-78: after the table loop, the
watermark is saved to THIS year whenever any records have accumulated in
the whole run (acs.py lines 77-78), regardless of this year's outcome. -/
def acsYearStep (fetch : ℕ → String → Except String (List (List Cell)))
    (st : TsState AcsRecord) (year : ℕ) : TsState AcsRecord :=
  let records := st.records ++ acsTablesLoop fetch year ACS_TABLES
  { records := records,
    watermark := if records.isEmpty then st.watermark else some year }

/-- process_acs from acs.py lines 35-83, over the year range
last_year+1 .. current_year-2. -/
def process_acs (fetch : ℕ → String → Except String (List (List Cell)))
    (last_year current_year : ℕ) : TsState AcsRecord :=
  (pyRange (last_year + 1) (current_year - 1)).foldl (acsYearStep fetch) ⟨[], none⟩

/-! ## Concrete inputs used in witnesses and counterexamples -/

/-- A sample dataset descriptor. -/
def dsAcs : Dataset :=
  { dataset_type := "acs", dataset_path := "acs/acs5",
    vintage := some 2021, priority := 1 }

/-- A sample variable descriptor. -/
def vB01 : VarInfo :=
  { variable_name := "B01003_001E", label := "Total Population" }

/-- The end-to-end example response: two states, one with a numeric value
and one with the "-" sentinel. -/
def exampleResponse : List (List Cell) :=
  [[some "NAME", some "state", some "B01003_001E"],
   [some "Alabama", some "01", some "5030000"],
   [some "Georgia", some "13", some "-"]]

/-- A response whose data row is LONGER than its header row. -/
def longRowResponse : List (List Cell) :=
  [[some "NAME", some "B01003_001E"],
   [some "Alabama", some "100", some "extra"]]

/-- A response whose data row is SHORTER than its header row. -/
def shortRowResponse : List (List Cell) :=
  [[some "NAME", some "B01003_001E"],
   [some "Alabama"]]

/-- A descriptor with a null vintage. -/
def dNullVintage : Dataset :=
  { dataset_type := "acs", dataset_path := "acs/acs5",
    vintage := none, priority := 1 }

/-- A same-priority descriptor carrying vintage 0. -/
def dZeroVintage : Dataset :=
  { dataset_type := "acs", dataset_path := "acs/acs1",
    vintage := some 0, priority := 1 }

/-- A catalog entry whose c_vintage is the integer 0: parseable and below
every configured min_year, yet falsy. -/
def rawZeroVintage : RawDataset :=
  { c_dataset := some ["acs", "acs5"], c_vintage := some (.pint 0),
    c_isAvailable := none }

/-- A one-row acs response carrying one estimate variable. -/
def acsGoodData : List (List Cell) :=
  [[some "NAME", some "state", some "B01003_001E"],
   [some "Alabama", some "01", some "5030000"]]

/-- acs oracle: the 2020 fetches fail with a 404 error, every other year
returns one good row per table request. -/
def acsFetch404 : ℕ → String → Except String (List (List Cell)) :=
  fun year _ =>
    if year == 2020 then .error "404 Client Error: Not Found" else .ok acsGoodData

/-- A one-row population response. -/
def popGoodData : List (List Cell) :=
  [[some "NAME", some "POP", some "DENSITY", some "state"],
   [some "Alabama", some "5030000", some "99.2", some "01"]]

/-- population oracle where every year succeeds. -/
def popFetchOk : ℕ → Option (List (List Cell)) := fun _ => some popGoodData

/-- population oracle where every fetch fails (both endpoints swallowed
their exceptions and returned None, e.g. for a not-yet-published year). -/
def popFetchNone : ℕ → Option (List (List Cell)) := fun _ => none

/-- population oracle: 2020 is not yet published (fetch returns None),
other years succeed. -/
def popFetch2020Gap : ℕ → Option (List (List Cell)) :=
  fun year => if year == 2020 then none else some popGoodData

/-- A poverty response whose second row raises: "-" is not this family's
"." sentinel, so float("-") raises after the first record was built. -/
def povRaisingData : List (List Cell) :=
  [[some "NAME", some "SAEPOVRTALL_PT", some "SAEMHI_PT", some "state"],
   [some "Alabama", some "13.6", some "52035", some "01"],
   [some "Georgia", some "-", some "55000", some "13"]]

/-- poverty oracle returning the raising response for every year. -/
def povFetchRaising : ℕ → Option (List (List Cell)) := fun _ => some povRaisingData

/-- A one-row poverty response. -/
def povGoodData : List (List Cell) :=
  [[some "NAME", some "SAEPOVRTALL_PT", some "SAEMHI_PT", some "state"],
   [some "Alabama", some "13.6", some "52035", some "01"]]

/-- poverty oracle where every year succeeds. -/
def povFetchOk : ℕ → Option (List (List Cell)) := fun _ => some povGoodData

/-- The record parse_api_response builds for the Alabama row of
exampleResponse. -/
def exRecAlabama : ObsRecord :=
  { dataset_type := "acs", vintage := some 2021,
    geography_name := some "Alabama", state_fips := some (some "01"),
    county_fips := none, place_fips := none,
    variableName := "B01003_001E", value := some "5030000",
    value_numeric := some (mkRat 5030000 1), label := "Total Population" }

/-- The record parse_api_response builds for the Georgia row of
exampleResponse: the "-" sentinel gives a null numeric value. -/
def exRecGeorgia : ObsRecord :=
  { dataset_type := "acs", vintage := some 2021,
    geography_name := some "Georgia", state_fips := some (some "13"),
    county_fips := none, place_fips := none,
    variableName := "B01003_001E", value := some "-",
    value_numeric := none, label := "Total Population" }

/-- A response without a NAME header column. -/
def noNameResponse : List (List Cell) :=
  [[some "st", some "B01003_001E"], [some "Alabama", some "7"]]

/-- The record parse_api_response builds for noNameResponse: the
geography name is read from column 0. -/
def noNameRec : ObsRecord :=
  { dataset_type := "acs", vintage := some 2021,
    geography_name := some "Alabama", state_fips := none,
    county_fips := none, place_fips := none,
    variableName := "B01003_001E", value := some "7",
    value_numeric := some (mkRat 7 1), label := "Total Population" }

/-! # Helper lemmas -/

/-- Every run of the batching loop flattens back to the input names, as
long as the carried group is below the cap. -/
theorem buildGroupsGo_flatten (vs : List VarInfo) :
    ∀ cur : List String, cur.length < MAX_VARS_PER_REQUEST →
      (buildGroupsGo vs cur).flatten = cur ++ vs.map (fun v => v.variable_name) := by
  induction vs with
  | nil =>
    intro cur _
    by_cases h : cur.isEmpty
    · simp [buildGroupsGo, h, List.isEmpty_iff.1 h]
    · simp [buildGroupsGo, h]
  | cons v vs ih =>
    intro cur hlt
    simp only [buildGroupsGo]
    by_cases h : MAX_VARS_PER_REQUEST ≤ (cur ++ [v.variable_name]).length
    · rw [if_pos h]
      simp [ih [] (by decide)]
    · rw [if_neg h]
      rw [ih _ (Nat.lt_of_not_le h)]
      simp

/-- Every group the batching loop emits is nonempty and within the cap,
as long as the carried group is below the cap. -/
theorem buildGroupsGo_bounded (vs : List VarInfo) :
    ∀ cur : List String, cur.length < MAX_VARS_PER_REQUEST →
      ∀ g ∈ buildGroupsGo vs cur, g.length ≤ MAX_VARS_PER_REQUEST ∧ g ≠ [] := by
  induction vs with
  | nil =>
    intro cur hlt g hg
    by_cases h : cur.isEmpty
    · simp [buildGroupsGo, h] at hg
    · simp [buildGroupsGo, h] at hg
      subst hg
      exact ⟨Nat.le_of_lt hlt, by simpa [List.isEmpty_iff] using h⟩
  | cons v vs ih =>
    intro cur hlt g hg
    simp only [buildGroupsGo] at hg
    by_cases h : MAX_VARS_PER_REQUEST ≤ (cur ++ [v.variable_name]).length
    · rw [if_pos h] at hg
      rcases List.mem_cons.1 hg with rfl | hg2
      · refine ⟨?_, by simp⟩
        have : (cur ++ [v.variable_name]).length = cur.length + 1 := by simp
        omega
      · exact ih [] (by decide) g hg2
    · rw [if_neg h] at hg
      exact ih _ (Nat.lt_of_not_le h) g hg

/-- Inversion for Option-valued mapM: every output element comes from
some input element. -/
theorem mapM_option_mem {α β : Type} (f : α → Option β) :
    ∀ (l : List α) (ys : List β), l.mapM f = some ys →
      ∀ y ∈ ys, ∃ x ∈ l, f x = some y := by
  intro l
  induction l with
  | nil =>
    intro ys h y hy
    simp only [List.mapM_nil] at h
    cases h
    simp at hy
  | cons a l ih =>
    intro ys h y hy
    rw [List.mapM_cons] at h
    cases hfa : f a with
    | none => rw [hfa] at h; simp at h
    | some b =>
      rw [hfa] at h
      cases hl : l.mapM f with
      | none => rw [hl] at h; simp at h
      | some bs =>
        rw [hl] at h
        obtain rfl : b :: bs = ys := by simpa using h
        rcases List.mem_cons.1 hy with rfl | hy2
        · exact ⟨a, List.mem_cons_self a l, hfa⟩
        · rcases ih bs hl y hy2 with ⟨x, hx, hfx⟩
          exact ⟨x, List.mem_cons_of_mem a hx, hfx⟩

/-- Option-valued mapM succeeds when every element succeeds. -/
theorem mapM_option_isSome {α β : Type} (f : α → Option β) :
    ∀ l : List α, (∀ x ∈ l, (f x).isSome) → (l.mapM f).isSome := by
  intro l
  induction l with
  | nil => intro _; rfl
  | cons a l ih =>
    intro hall
    rw [List.mapM_cons]
    cases hfa : f a with
    | none =>
      have := hall a (List.mem_cons_self a l)
      rw [hfa] at this
      simp at this
    | some b =>
      cases hl : l.mapM f with
      | none =>
        have := ih (fun x hx => hall x (List.mem_cons_of_mem a hx))
        rw [hl] at this
        simp at this
      | some bs => simp

/-- A header index produced by headerIdx is within the header row. -/
theorem headerIdx_lt (headers : List Cell) (c : Cell) (i : ℕ)
    (h : headerIdx headers c = some i) : i < headers.length := by
  simp only [headerIdx] at h
  cases hg : (headers.enum.filter fun p => p.2 = c).getLast? with
  | none => rw [hg] at h; simp at h
  | some p =>
    rw [hg] at h
    simp at h
    have hmem := List.mem_of_getLast?_eq_some hg
    have hin := List.mem_of_mem_filter hmem
    have h2 := List.mem_enum_iff_getElem?.1 hin
    rcases List.getElem?_eq_some.1 h2 with ⟨hlt, _⟩
    exact h ▸ hlt

/-- Every record emitted by the per-variable loop carries the supplied
geography name, a value read from the row, and the numeric parse of that
value. -/
theorem varRecords_mem (info : Dataset) (vars : List VarInfo)
    (headers row : List Cell) (gName : Cell) (sF cF pF : Option Cell) :
    ∀ (ks : List String) (recs : List ObsRecord),
      varRecords info vars headers row gName sF cF pF ks = some recs →
      ∀ r ∈ recs, r.geography_name = gName ∧ r.value_numeric = pyNumeric r.value ∧
        ∃ i, row.get? i = some r.value := by
  intro ks
  induction ks with
  | nil =>
    intro recs h r hr
    simp only [varRecords] at h
    cases h
    simp at hr
  | cons k ks ih =>
    intro recs h r hr
    simp only [varRecords] at h
    cases hidx : headerIdx headers (some k) with
    | none =>
      simp only [hidx] at h
      exact ih recs h r hr
    | some i =>
      simp only [hidx] at h
      cases hv : row.get? i with
      | none => simp only [hv] at h; exact absurd h (by simp)
      | some v =>
        simp only [hv] at h
        cases hrest : varRecords info vars headers row gName sF cF pF ks with
        | none => simp only [hrest] at h; exact absurd h (by simp)
        | some rest =>
          simp only [hrest, Option.some.injEq] at h
          subst h
          rcases List.mem_cons.1 hr with rfl | hr2
          · exact ⟨rfl, rfl, i, hv⟩
          · exact ih rest hrest r hr2

/-- The per-variable loop succeeds whenever every row index drawn from
the header is in range. -/
theorem varRecords_isSome (info : Dataset) (vars : List VarInfo)
    (headers row : List Cell) (gName : Cell) (sF cF pF : Option Cell)
    (hlen : headers.length ≤ row.length) :
    ∀ ks, (varRecords info vars headers row gName sF cF pF ks).isSome := by
  intro ks
  induction ks with
  | nil => simp [varRecords]
  | cons k ks ih =>
    simp only [varRecords]
    cases hidx : headerIdx headers (some k) with
    | none => simp only [hidx]; exact ih
    | some i =>
      have hi : i < row.length := Nat.lt_of_lt_of_le (headerIdx_lt _ _ _ hidx) hlen
      simp only [hidx, List.get?_eq_get hi]
      cases hrest : varRecords info vars headers row gName sF cF pF ks with
      | none => rw [hrest] at ih; simp at ih
      | some rest => simp [hrest]

/-- geoField succeeds whenever the row is at least as long as the header. -/
theorem geoField_isSome (headers row : List Cell) (k : String)
    (hlen : headers.length ≤ row.length) : (geoField headers row k).isSome := by
  simp only [geoField]
  cases hidx : headerIdx headers (some k) with
  | none => simp
  | some i =>
    have hi : i < row.length := Nat.lt_of_lt_of_le (headerIdx_lt _ _ _ hidx) hlen
    simp only [hidx, List.get?_eq_get hi]
    simp

/-- Every record of a successfully parsed row reads its geography name at
the NAME-or-zero index of that row, preserves its value cell, and parses
value_numeric from it. -/
theorem parseRow_mem (info : Dataset) (vars : List VarInfo)
    (headers row : List Cell) (recs : List ObsRecord)
    (h : parseRow info vars headers row = some recs) :
    ∀ r ∈ recs,
      row.get? ((headerIdx headers (some "NAME")).getD 0) = some r.geography_name ∧
      r.value_numeric = pyNumeric r.value ∧ ∃ i, row.get? i = some r.value := by
  intro r hr
  simp only [parseRow] at h
  cases hg : row.get? ((headerIdx headers (some "NAME")).getD 0) with
  | none => simp only [hg] at h; exact absurd h (by simp)
  | some gName =>
    simp only [hg] at h
    cases hs : geoField headers row "state" with
    | none => simp only [hs] at h; exact absurd h (by simp)
    | some sF =>
      simp only [hs] at h
      cases hc : geoField headers row "county" with
      | none => simp only [hc] at h; exact absurd h (by simp)
      | some cF =>
        simp only [hc] at h
        cases hp : geoField headers row "place" with
        | none => simp only [hp] at h; exact absurd h (by simp)
        | some pF =>
          simp only [hp] at h
          have hm := varRecords_mem info vars headers row gName sF cF pF _ recs h r hr
          have hgr : some gName = some r.geography_name := by rw [hm.1]
          exact ⟨hgr, hm.2.1, hm.2.2⟩

/-- A row parses successfully whenever the header is nonempty and the row
is at least as long as the header. -/
theorem parseRow_isSome (info : Dataset) (vars : List VarInfo)
    (headers row : List Cell) (hne : headers ≠ [])
    (hlen : headers.length ≤ row.length) :
    (parseRow info vars headers row).isSome := by
  simp only [parseRow]
  have hgidx : ((headerIdx headers (some "NAME")).getD 0) < row.length := by
    cases hidx : headerIdx headers (some "NAME") with
    | none =>
      have : 0 < headers.length := List.length_pos.2 hne
      simpa using Nat.lt_of_lt_of_le this hlen
    | some i =>
      simpa using Nat.lt_of_lt_of_le (headerIdx_lt _ _ _ hidx) hlen
  rw [List.get?_eq_get hgidx]
  have hs := geoField_isSome headers row "state" hlen
  have hc := geoField_isSome headers row "county" hlen
  have hp := geoField_isSome headers row "place" hlen
  cases hse : geoField headers row "state" with
  | none => rw [hse] at hs; simp at hs
  | some sF =>
    cases hce : geoField headers row "county" with
    | none => rw [hce] at hc; simp at hc
    | some cF =>
      cases hpe : geoField headers row "place" with
      | none => rw [hpe] at hp; simp at hp
      | some pF =>
        simp only [hse, hce, hpe]
        exact varRecords_isSome info vars headers row _ sF cF pF hlen _

/-- Every record of a successfully parsed response comes from some data
row: its geography name is read at the NAME-or-zero index of that row,
its value is a cell of that row, and value_numeric is the numeric parse
of that value. -/
theorem parse_api_response_mem (info : Dataset) (vars : List VarInfo)
    (headers : List Cell) (rows : List (List Cell)) (recs : List ObsRecord)
    (h : parse_api_response (headers :: rows) info vars = some recs) :
    ∀ r ∈ recs, ∃ row ∈ rows,
      row.get? ((headerIdx headers (some "NAME")).getD 0) = some r.geography_name ∧
      r.value_numeric = pyNumeric r.value ∧ ∃ i, row.get? i = some r.value := by
  intro r hr
  cases rows with
  | nil =>
    simp only [parse_api_response] at h
    cases h
    simp at hr
  | cons row0 rest =>
    simp only [parse_api_response] at h
    cases hm : (row0 :: rest).mapM (parseRow info vars headers) with
    | none => simp only [hm] at h; exact absurd h (by simp)
    | some recss =>
      simp only [hm, Option.some.injEq] at h
      subst h
      rcases List.mem_flatten.1 hr with ⟨chunk, hchunk, hrc⟩
      rcases mapM_option_mem _ _ _ hm chunk hchunk with ⟨row, hrow, hparse⟩
      exact ⟨row, hrow, parseRow_mem info vars headers row chunk hparse r hrc⟩

/-- A response parses successfully (no IndexError) whenever the header is
nonempty and every data row is at least as long as the header. -/
theorem parse_api_response_isSome (info : Dataset) (vars : List VarInfo)
    (headers : List Cell) (rows : List (List Cell)) (hne : headers ≠ [])
    (hlen : ∀ row ∈ rows, headers.length ≤ row.length) :
    (parse_api_response (headers :: rows) info vars).isSome := by
  cases rows with
  | nil => simp [parse_api_response]
  | cons row0 rest =>
    simp only [parse_api_response]
    have hm := mapM_option_isSome (parseRow info vars headers) (row0 :: rest)
      (fun row hrow => parseRow_isSome info vars headers row hne (hlen row hrow))
    cases he : (row0 :: rest).mapM (parseRow info vars headers) with
    | none => rw [he] at hm; simp at hm
    | some recss => simp [he]

/-- Boolean normal form of is_priority_variable for a configured type:
exact match, or prefix match, or the broad fallback. -/
theorem is_priority_variable_eval (t v : String) (codes : List String)
    (ht : tableOf t = some codes) :
    is_priority_variable t v =
      (codes.contains v || codes.any (fun c => pyStartsWith v c) ||
        (BROAD_TYPES.contains t &&
          (!pyStartsWith v "NAME" && !CONTROL_TOKENS.contains v))) := by
  simp only [is_priority_variable, ht]
  cases h1 : codes.contains v with
  | true => simp
  | false =>
    cases h2 : codes.any (fun c => pyStartsWith v c) with
    | true => simp
    | false =>
      cases h3 : BROAD_TYPES.contains t with
      | true => simp
      | false => simp

/-- The vintage check holds iff every truthy, parseable vintage meets the
pattern's minimum year. -/
theorem vintage_ok_iff (t : String) (cv : Option PyVal) :
    vintage_ok t cv = true ↔
      ∀ v, cv = some v → v.truthy = true →
        ∀ y, pyInt? v = some y → minYearOf t ≤ y := by
  cases cv with
  | none => simp [vintage_ok]
  | some v =>
    simp only [vintage_ok, Option.some.injEq]
    cases htr : v.truthy with
    | false =>
      simp only [Bool.false_eq_true, if_false, true_iff]
      intro v2 hv2 htr2
      subst hv2
      rw [htr] at htr2
      cases htr2
    | true =>
      simp only [if_true]
      cases hp : pyInt? v with
      | none =>
        simp only [true_iff]
        intro v2 hv2 _ y hy
        subst hv2
        rw [hp] at hy
        cases hy
      | some y =>
        simp only [decide_eq_true_eq]
        constructor
        · intro hy v2 hv2 _ y2 hy2
          subst hv2
          rw [hp, Option.some.injEq] at hy2
          subst hy2
          exact hy
        · intro hall
          exact hall v rfl htr y hp

/-- keyLe is total. -/
theorem keyLe_total (a b : Dataset) : (keyLe a b || keyLe b a) = true := by
  simp only [keyLe, Bool.or_eq_true, decide_eq_true_eq]
  omega

/-- keyLe is transitive. -/
theorem keyLe_trans (a b c : Dataset) (hab : keyLe a b = true)
    (hbc : keyLe b c = true) : keyLe a c = true := by
  simp only [keyLe, decide_eq_true_eq] at hab hbc ⊢
  omega

/-- The catalog sort output is pairwise ordered by keyLe. -/
theorem sortCatalog_pairwise (l : List Dataset) :
    (sortCatalog l).Pairwise (fun a b => keyLe a b = true) :=
  List.sorted_mergeSort keyLe_trans keyLe_total l

/-- The selection loop of process_data_fetcher equals take (10 - n) of
the first-per-type filter. -/
theorem selectGo_eq (l : List Dataset) :
    ∀ (seen : List String) (n : ℕ), n < 10 →
      selectGo l seen n = (dedupByType l seen).take (10 - n) := by
  induction l with
  | nil => intro seen n _; simp [selectGo, dedupByType]
  | cons d ds ih =>
    intro seen n hn
    simp only [selectGo, dedupByType]
    by_cases hs : seen.contains d.dataset_type = true
    · rw [if_pos hs, if_pos hs]
      exact ih seen n hn
    · rw [if_neg hs, if_neg hs]
      by_cases hcap : 10 ≤ n + 1
      · have hn9 : n = 9 := by omega
        subst hn9
        rw [if_pos hcap]
        rfl
      · have hn1 : n + 1 < 10 := by omega
        rw [if_neg hcap, ih (d.dataset_type :: seen) (n + 1) hn1]
        have hsub : 10 - n = (10 - (n + 1)) + 1 := by omega
        rw [hsub]
        rfl

/-- Every element kept by the first-per-type filter has an unseen type,
and the kept types are pairwise distinct. -/
theorem dedupByType_spec : ∀ (l : List Dataset) (seen : List String),
    (∀ d ∈ dedupByType l seen, seen.contains d.dataset_type = false)
    ∧ (dedupByType l seen).Pairwise
        (fun a b => a.dataset_type ≠ b.dataset_type) := by
  intro l
  induction l with
  | nil =>
    intro seen
    exact ⟨fun d hd => absurd hd (by simp [dedupByType]), by simp [dedupByType]⟩
  | cons d ds ih =>
    intro seen
    simp only [dedupByType]
    by_cases hs : seen.contains d.dataset_type = true
    · rw [if_pos hs]
      exact ih seen
    · rw [if_neg hs]
      have hrec := ih (d.dataset_type :: seen)
      have hsf : seen.contains d.dataset_type = false := by
        revert hs
        cases seen.contains d.dataset_type <;> simp
      constructor
      · intro e he
        rcases List.mem_cons.1 he with rfl | he2
        · exact hsf
        · have h2 := hrec.1 e he2
          rw [List.contains_cons, Bool.or_eq_false_iff] at h2
          exact h2.2
      · refine List.Pairwise.cons ?_ hrec.2
        intro e he
        have h2 := hrec.1 e he
        rw [List.contains_cons, Bool.or_eq_false_iff] at h2
        have := beq_eq_false_iff_ne.1 h2.1
        exact fun hdt => this hdt.symm

/-- The first-per-type filter is a sublist of its input. -/
theorem dedupByType_sublist : ∀ (l : List Dataset) (seen : List String),
    (dedupByType l seen).Sublist l := by
  intro l
  induction l with
  | nil => intro seen; simp [dedupByType]
  | cons d ds ih =>
    intro seen
    simp only [dedupByType]
    by_cases hs : seen.contains d.dataset_type = true
    · rw [if_pos hs]
      exact (ih seen).cons d
    · rw [if_neg hs]
      exact (ih _).cons₂ d

/-- Last element of a nonempty arithmetic range. -/
theorem range'_getLast?_succ (a n : ℕ) :
    (List.range' a (n + 1)).getLast? = some (a + n) := by
  rw [List.range'_concat, List.getLast?_concat]
  congr 1
  omega

/-- A successful population year saves its own year as the watermark. -/
theorem popYearStep_watermark_ok (fetch : ℕ → Option (List (List Cell)))
    (st : TsState PopRecord) (year : ℕ) (h : popYearOk fetch year = true) :
    (popYearStep fetch st year).watermark = some year := by
  simp only [popYearOk] at h
  simp only [popYearStep]
  cases hf : fetch year with
  | none => simp only [hf] at h; exact absurd h (by simp)
  | some data =>
    simp only [hf] at h
    cases data with
    | nil => exact absurd h (by simp)
    | cons headers rows =>
      rw [Bool.and_eq_true, Bool.not_eq_true', Bool.not_eq_true'] at h
      simp [h.1, h.2]

/-- A failed population year (no data, short data or a raising row)
leaves the watermark unchanged. -/
theorem popYearStep_watermark_fail (fetch : ℕ → Option (List (List Cell)))
    (st : TsState PopRecord) (year : ℕ) (h : popYearOk fetch year = false) :
    (popYearStep fetch st year).watermark = st.watermark := by
  simp only [popYearOk] at h
  simp only [popYearStep]
  cases hf : fetch year with
  | none => rfl
  | some data =>
    simp only [hf] at h
    cases data with
    | nil => rfl
    | cons headers rows =>
      rw [Bool.and_eq_false_iff] at h
      rcases h with h | h
      · rw [Bool.not_eq_false'] at h
        simp [h]
      · rw [Bool.not_eq_false'] at h
        by_cases hie : rows.isEmpty = true
        · simp [hie]
        · have hie2 : rows.isEmpty = false := by
            revert hie
            cases rows.isEmpty <;> simp
          simp [hie2, h]

/-- Over a run whose years all succeed up to the last, the final
watermark equals the last year (and the initial watermark when the range
is empty). -/
theorem popFold_watermark (fetch : ℕ → Option (List (List Cell))) :
    ∀ (ys : List ℕ) (st : TsState PopRecord),
      (∀ y ∈ ys, popYearOk fetch y = true) →
      (ys.foldl (popYearStep fetch) st).watermark =
        (match ys.getLast? with
         | some y => some y
         | none => st.watermark) := by
  intro ys
  induction ys with
  | nil => intro st _; rfl
  | cons y ys ih =>
    intro st hall
    rw [List.foldl_cons,
      ih (popYearStep fetch st y) (fun z hz => hall z (List.mem_cons_of_mem y hz))]
    cases ys with
    | nil =>
      simp only [List.getLast?_nil, List.getLast?_singleton]
      exact popYearStep_watermark_ok fetch st y (hall y (List.mem_cons_self y []))
    | cons y2 ys2 =>
      rw [List.getLast?_cons_cons]
      have hs : ((y2 :: ys2).getLast?).isSome = true := by
        rw [List.getLast?_isSome]
        simp
      obtain ⟨L, hL⟩ := Option.isSome_iff_exists.1 hs
      simp only [hL]

/-- A successful poverty year saves its own year as the watermark. -/
theorem povYearStep_watermark_ok (fetch : ℕ → Option (List (List Cell)))
    (st : TsState PovRecord) (year : ℕ) (h : povYearOk fetch year = true) :
    (povYearStep fetch st year).watermark = some year := by
  simp only [povYearOk] at h
  simp only [povYearStep]
  cases hf : fetch year with
  | none => simp only [hf] at h; exact absurd h (by simp)
  | some data =>
    simp only [hf] at h
    cases data with
    | nil => exact absurd h (by simp)
    | cons headers rows =>
      rw [Bool.and_eq_true, Bool.not_eq_true', Bool.not_eq_true'] at h
      simp [h.1, h.2]

/-- A failed poverty year leaves the watermark unchanged. -/
theorem povYearStep_watermark_fail (fetch : ℕ → Option (List (List Cell)))
    (st : TsState PovRecord) (year : ℕ) (h : povYearOk fetch year = false) :
    (povYearStep fetch st year).watermark = st.watermark := by
  simp only [povYearOk] at h
  simp only [povYearStep]
  cases hf : fetch year with
  | none => rfl
  | some data =>
    simp only [hf] at h
    cases data with
    | nil => rfl
    | cons headers rows =>
      rw [Bool.and_eq_false_iff] at h
      rcases h with h | h
      · rw [Bool.not_eq_false'] at h
        simp [h]
      · rw [Bool.not_eq_false'] at h
        by_cases hie : rows.isEmpty = true
        · simp [hie]
        · have hie2 : rows.isEmpty = false := by
            revert hie
            cases rows.isEmpty <;> simp
          simp [hie2, h]

/-- Over a poverty run whose years all succeed, the final watermark is
the last year of the range. -/
theorem povFold_watermark (fetch : ℕ → Option (List (List Cell))) :
    ∀ (ys : List ℕ) (st : TsState PovRecord),
      (∀ y ∈ ys, povYearOk fetch y = true) →
      (ys.foldl (povYearStep fetch) st).watermark =
        (match ys.getLast? with
         | some y => some y
         | none => st.watermark) := by
  intro ys
  induction ys with
  | nil => intro st _; rfl
  | cons y ys ih =>
    intro st hall
    rw [List.foldl_cons,
      ih (povYearStep fetch st y) (fun z hz => hall z (List.mem_cons_of_mem y hz))]
    cases ys with
    | nil =>
      simp only [List.getLast?_nil, List.getLast?_singleton]
      exact povYearStep_watermark_ok fetch st y (hall y (List.mem_cons_self y []))
    | cons y2 ys2 =>
      rw [List.getLast?_cons_cons]
      have hs : ((y2 :: ys2).getLast?).isSome = true := by
        rw [List.getLast?_isSome]
        simp
      obtain ⟨L, hL⟩ := Option.isSome_iff_exists.1 hs
      simp only [hL]

/-- Each poverty year appends some (possibly empty) list of new records
after the records accumulated so far. -/
theorem povYearStep_records_append (fetch : ℕ → Option (List (List Cell)))
    (st : TsState PovRecord) (year : ℕ) :
    ∃ tl, (povYearStep fetch st year).records = st.records ++ tl := by
  simp only [povYearStep]
  cases hf : fetch year with
  | none => exact ⟨[], by simp⟩
  | some data =>
    cases data with
    | nil => exact ⟨[], by simp⟩
    | cons headers rows =>
      by_cases hie : rows.isEmpty = true
      · exact ⟨[], by simp [hie]⟩
      · have hie2 : rows.isEmpty = false := by
          revert hie
          cases rows.isEmpty <;> simp
        by_cases hflag : (povRowsLoop year headers rows).2 = true
        · exact ⟨(povRowsLoop year headers rows).1, by simp [hie2, hflag]⟩
        · have hflag2 : (povRowsLoop year headers rows).2 = false := by
            revert hflag
            cases (povRowsLoop year headers rows).2 <;> simp
          exact ⟨(povRowsLoop year headers rows).1, by simp [hie2, hflag2]⟩

/-- A 404-flagged table failure breaks the acs table loop: only that
table's partial records are kept and the remaining tables of this year
are skipped. -/
theorem acsTablesLoop_break404
    (fetch : ℕ → String → Except String (List (List Cell)))
    (year : ℕ) (tid tname : String) (rest : List (String × String)) (e : String)
    (he : (acsTableStep fetch year tid tname).2 = some e)
    (h404 : strContains e "404" = true) :
    acsTablesLoop fetch year ((tid, tname) :: rest) =
      (acsTableStep fetch year tid tname).1 := by
  simp only [acsTablesLoop, he, h404, if_true]

/-- The acs year step saves its own year whenever any records have
accumulated in the run so far, regardless of this year's outcome. -/
theorem acsYearStep_watermark
    (fetch : ℕ → String → Except String (List (List Cell)))
    (st : TsState AcsRecord) (year : ℕ)
    (h : st.records ++ acsTablesLoop fetch year ACS_TABLES ≠ []) :
    (acsYearStep fetch st year).watermark = some year := by
  have hie : (st.records ++ acsTablesLoop fetch year ACS_TABLES).isEmpty = false :=
    List.isEmpty_eq_false.2 h
  simp [acsYearStep, hie]

/-! # Claim theorems -/

/-- C7: build_variable_groups partitions any variable list, in order,
into consecutive nonempty batches of at most MAX_VARS_PER_REQUEST (50)
names whose concatenation is the input name sequence; 120 variables give
batches of sizes 50, 50, 20 and an empty input gives zero batches. -/
theorem c7_batch_partitioning :
    (∀ vs : List VarInfo,
      (build_variable_groups vs).flatten = vs.map (fun v => v.variable_name))
    ∧ (∀ vs : List VarInfo, ∀ g ∈ build_variable_groups vs,
      g.length ≤ MAX_VARS_PER_REQUEST ∧ g ≠ [])
    ∧ ((build_variable_groups
        (List.replicate 120 ⟨"B01003_001E", "Total Population"⟩)).map
          List.length = [50, 50, 20])
    ∧ build_variable_groups [] = [] := by
  refine ⟨fun vs => ?_, fun vs => buildGroupsGo_bounded vs [] (by decide),
    by decide, rfl⟩
  simpa using buildGroupsGo_flatten vs [] (by decide)

/-- Witness for C7 at a one-variable input. -/
theorem c7_batch_partitioning_witness :
    (build_variable_groups [⟨"B01001_001E", "L"⟩]).flatten = ["B01001_001E"]
    ∧ (["B01001_001E"].length ≤ MAX_VARS_PER_REQUEST ∧ ["B01001_001E"] ≠ []) :=
  ⟨c7_batch_partitioning.1 [⟨"B01001_001E", "L"⟩],
   c7_batch_partitioning.2.1 [⟨"B01001_001E", "L"⟩] ["B01001_001E"] (by decide)⟩

/-- C3 is false as stated: a data row with MORE columns than the header
row is not discarded as malformed — parse_api_response still emits a
record for it. -/
theorem c3_counterexample :
    ([some "Alabama", some "100", some "extra"] : List Cell).length ≠
      ([some "NAME", some "B01003_001E"] : List Cell).length
    ∧ (parse_api_response longRowResponse dsAcs [vB01]).map List.length = some 1 := by
  decide

/-- C3 (amended): parse_api_response performs no row-length validation.
It succeeds on any response whose data rows are at least as long as its
nonempty header row (a longer row is processed, extra cells ignored), and
a data row shorter than a referenced header index makes the whole call
fail with an uncaught IndexError (modelled as `none`) instead of being
discarded. -/
theorem c3_no_row_length_validation :
    (∀ (info : Dataset) (vars : List VarInfo) (headers : List Cell)
      (rows : List (List Cell)), headers ≠ [] →
      (∀ row ∈ rows, headers.length ≤ row.length) →
      (parse_api_response (headers :: rows) info vars).isSome = true)
    ∧ parse_api_response shortRowResponse dsAcs [vB01] = none :=
  ⟨fun info vars headers rows hne hlen =>
    parse_api_response_isSome info vars headers rows hne hlen, by decide⟩

/-- Witness for C3 (amended) at the example response. -/
theorem c3_no_row_length_validation_witness :
    (parse_api_response ([some "NAME", some "state", some "B01003_001E"] ::
      [[some "Alabama", some "01", some "5030000"],
       [some "Georgia", some "13", some "-"]]) dsAcs [vB01]).isSome = true :=
  c3_no_row_length_validation.1 dsAcs [vB01]
    [some "NAME", some "state", some "B01003_001E"]
    [[some "Alabama", some "01", some "5030000"],
     [some "Georgia", some "13", some "-"]]
    (by decide) (by decide)

/-- C6: every emitted record preserves its raw response cell verbatim in
value and stores its numeric parse in value_numeric; the parse is null on
empty, null, sentinel and unparseable cells and the exact number
otherwise ("42.5" gives 42.5). -/
theorem c6_value_and_numeric :
    (∀ (info : Dataset) (vars : List VarInfo) (headers : List Cell)
      (rows : List (List Cell)) (recs : List ObsRecord),
      parse_api_response (headers :: rows) info vars = some recs →
      ∀ r ∈ recs, r.value_numeric = pyNumeric r.value ∧
        ∃ row ∈ rows, ∃ i, row.get? i = some r.value)
    ∧ pyNumeric (some "42.5") = some (mkRat 85 2)
    ∧ (mkRat 85 2 : ℚ) = 42.5
    ∧ pyNumeric (some "-") = none
    ∧ pyNumeric (some ".") = none
    ∧ pyNumeric (some "") = none
    ∧ pyNumeric none = none
    ∧ (∀ s : String, pyFloat? s = none → pyNumeric (some s) = none) := by
  refine ⟨?_, by decide, ?_, by decide, by decide, by decide, rfl, ?_⟩
  · intro info vars headers rows recs h r hr
    rcases parse_api_response_mem info vars headers rows recs h r hr with
      ⟨row, hrow, _, hvn, i, hi⟩
    exact ⟨hvn, row, hrow, i, hi⟩
  · rw [Rat.mkRat_eq_div]
    norm_num
  · intro s hs
    simp only [pyNumeric]
    split
    · exact hs
    · rfl

/-- Witness for C6 at the example response and an unparseable string. -/
theorem c6_value_and_numeric_witness :
    (exRecGeorgia.value_numeric = pyNumeric exRecGeorgia.value ∧
      ∃ row ∈ [[some "Alabama", some "01", some "5030000"],
               [some "Georgia", some "13", some "-"]],
        ∃ i, row.get? i = some exRecGeorgia.value)
    ∧ pyNumeric (some "xyz") = none :=
  ⟨c6_value_and_numeric.1 dsAcs [vB01]
      [some "NAME", some "state", some "B01003_001E"]
      [[some "Alabama", some "01", some "5030000"],
       [some "Georgia", some "13", some "-"]]
      [exRecAlabama, exRecGeorgia] (by decide) exRecGeorgia (by decide),
   c6_value_and_numeric.2.2.2.2.2.2.2 "xyz" (by decide)⟩

/-- C9: when NAME is absent from the header row, each emitted record's
geography_name is read from the row's column 0 (headerIdx defaults to 0);
when NAME is present, it is read at the NAME header's index. -/
theorem c9_geography_name_fallback :
    (∀ (info : Dataset) (vars : List VarInfo) (headers : List Cell)
      (rows : List (List Cell)) (recs : List ObsRecord),
      parse_api_response (headers :: rows) info vars = some recs →
      ∀ r ∈ recs, ∃ row ∈ rows,
        row.get? ((headerIdx headers (some "NAME")).getD 0) = some r.geography_name)
    ∧ (∀ headers : List Cell, headerIdx headers (some "NAME") = none →
        (headerIdx headers (some "NAME")).getD 0 = 0) := by
  constructor
  · intro info vars headers rows recs h r hr
    rcases parse_api_response_mem info vars headers rows recs h r hr with
      ⟨row, hrow, hg, _⟩
    exact ⟨row, hrow, hg⟩
  · intro headers h
    rw [h]
    rfl

/-- Witness for C9 at a response without a NAME column. -/
theorem c9_geography_name_fallback_witness :
    (∃ row ∈ [[some "Alabama", some "7"]],
      row.get? ((headerIdx [some "st", some "B01003_001E"] (some "NAME")).getD 0) =
        some noNameRec.geography_name)
    ∧ (headerIdx [some "st", some "B01003_001E"] (some "NAME")).getD 0 = 0 :=
  ⟨c9_geography_name_fallback.1 dsAcs [vB01]
      [some "st", some "B01003_001E"] [[some "Alabama", some "7"]]
      [noNameRec] (by decide) noNameRec (by decide),
   c9_geography_name_fallback.2 [some "st", some "B01003_001E"] (by decide)⟩

/-- C2 is false as stated for the configured types cbp and pep: the
variable XYZ matches no cbp table entry and extends no cbp table code,
yet is_priority_variable includes it through the broad-inclusion branch. -/
theorem c2_counterexample :
    is_priority_variable "cbp" "XYZ" = true
    ∧ tableOf "cbp" = some ["EMP", "PAYANN", "ESTAB", "EMPSZES", "PAYQTR1"]
    ∧ ["EMP", "PAYANN", "ESTAB", "EMPSZES", "PAYQTR1"].contains "XYZ" = false
    ∧ ["EMP", "PAYANN", "ESTAB", "EMPSZES", "PAYQTR1"].any
        (fun c => pyStartsWith "XYZ" c) = false := by
  decide

/-- C2 (amended): for a configured dataset type outside the
broad-inclusion list (acs, saipe, sahie, intltrade), a variable is
included iff it exactly matches a table entry or starts with a table
code; for the configured broad-inclusion types (cbp, pep), a variable is
included iff it matches or extends a table code OR does not start with
NAME and is not a reserved control token. -/
theorem c2_priority_variable_rule :
    (∀ (t v : String) (codes : List String), tableOf t = some codes →
      BROAD_TYPES.contains t = false →
      (is_priority_variable t v = true ↔
        v ∈ codes ∨ ∃ c ∈ codes, pyStartsWith v c = true))
    ∧ (∀ (t v : String) (codes : List String), tableOf t = some codes →
      BROAD_TYPES.contains t = true →
      (is_priority_variable t v = true ↔
        v ∈ codes ∨ (∃ c ∈ codes, pyStartsWith v c = true) ∨
          (pyStartsWith v "NAME" = false ∧ v ∉ CONTROL_TOKENS))) := by
  constructor
  · intro t v codes ht hb
    rw [is_priority_variable_eval t v codes ht, hb, Bool.false_and, Bool.or_false,
      Bool.or_eq_true]
    constructor
    · rintro (h1 | h2)
      · exact Or.inl (by simpa using h1)
      · exact Or.inr (List.any_eq_true.1 h2)
    · rintro (h1 | h2)
      · exact Or.inl (by simpa using h1)
      · exact Or.inr (List.any_eq_true.2 h2)
  · intro t v codes ht hb
    rw [is_priority_variable_eval t v codes ht, hb, Bool.true_and,
      Bool.or_eq_true, Bool.or_eq_true]
    constructor
    · rintro ((h1 | h2) | h3)
      · exact Or.inl (by simpa using h1)
      · exact Or.inr (Or.inl (List.any_eq_true.1 h2))
      · rw [Bool.and_eq_true, Bool.not_eq_true', Bool.not_eq_true'] at h3
        exact Or.inr (Or.inr ⟨h3.1, by simpa using h3.2⟩)
    · rintro (h1 | h2 | h3)
      · exact Or.inl (Or.inl (by simpa using h1))
      · exact Or.inl (Or.inr (List.any_eq_true.2 h2))
      · refine Or.inr ?_
        rw [Bool.and_eq_true, Bool.not_eq_true', Bool.not_eq_true']
        exact ⟨h3.1, by simpa using h3.2⟩

/-- Witness for C2 at a prefix-admitted acs variable and a
broad-inclusion pep variable. -/
theorem c2_priority_variable_rule_witness :
    is_priority_variable "acs" "B01001_001E" = true
    ∧ is_priority_variable "pep" "RANDOMVAR" = true :=
  ⟨(c2_priority_variable_rule.1 "acs" "B01001_001E"
      ["B01001", "B02001", "B03001", "B19013", "B19001", "B17001",
       "B22001", "B25001", "B25077", "B25003", "B25061", "B23025",
       "B24010", "B08301", "B08303", "B15003", "B14001"]
      (by decide) (by decide)).mpr
      (Or.inr ⟨"B01001", by decide, by decide⟩),
   (c2_priority_variable_rule.2 "pep" "RANDOMVAR"
      ["POP", "DENSITY", "BIRTHS", "DEATHS", "NATURALINC",
       "INTERNATIONALMIG", "DOMESTICMIG"]
      (by decide) (by decide)).mpr
      (Or.inr (Or.inr ⟨by decide, by decide⟩))⟩

/-- C4 is false as stated: an entry whose c_vintage is the integer 0 is
parseable and below the acs minimum vintage, yet included, because the
source's truthiness check `if vintage:` skips the comparison for 0. -/
theorem c4_counterexample :
    extract_dataset_type rawZeroVintage = some ("acs", "acs/acs5")
    ∧ rawZeroVintage.c_vintage = some (.pint 0)
    ∧ pyInt? (.pint 0) = some 0
    ∧ (0 : ℤ) < minYearOf "acs"
    ∧ should_include_dataset rawZeroVintage = true := by
  decide

/-- C4 (amended): dataset_type is assigned iff the slash-joined c_dataset
path contains a configured pattern key; an entry with no type is
excluded; a typed entry is included iff its availability flag (default
true) holds and every truthy, int-parseable vintage is at least the
pattern's min_year — unparseable vintages pass the check, and so do the
falsy vintages 0 and "". -/
theorem c4_inclusion_rule :
    (∀ (parts : List String) (vint : Option PyVal) (avail : Option Bool),
      (extract_dataset_type ⟨some parts, vint, avail⟩).isSome = true ↔
        ∃ p ∈ PRIORITY_DATASETS,
          strContains (pyLower (String.intercalate "/" parts)) p.1 = true)
    ∧ (∀ d : RawDataset, extract_dataset_type d = none →
        should_include_dataset d = false)
    ∧ (∀ (d : RawDataset) (t path : String),
        extract_dataset_type d = some (t, path) →
        (should_include_dataset d = true ↔
          (d.c_isAvailable.getD true = true ∧
           ∀ v, d.c_vintage = some v → v.truthy = true →
             ∀ y, pyInt? v = some y → minYearOf t ≤ y))) := by
  refine ⟨?_, ?_, ?_⟩
  · intro parts vint avail
    simp only [extract_dataset_type]
    cases hf : PRIORITY_DATASETS.find?
        (fun p => strContains (pyLower (String.intercalate "/" parts)) p.1) with
    | none =>
      simp only [hf]
      constructor
      · intro h; simp at h
      · rintro ⟨p, hp, hc⟩
        have hs : (PRIORITY_DATASETS.find?
            (fun q => strContains (pyLower (String.intercalate "/" parts)) q.1)).isSome :=
          List.find?_isSome.2 ⟨p, hp, by simpa using hc⟩
        rw [hf] at hs
        simp at hs
    | some p =>
      simp only [hf]
      constructor
      · intro _
        have hmem := List.find?_some hf
        have hin := List.mem_of_find?_eq_some hf
        exact ⟨p, hin, by simpa using hmem⟩
      · intro _; rfl
  · intro d h
    simp only [should_include_dataset, h]
  · intro d t path h
    simp only [should_include_dataset, h, Bool.and_eq_true, vintage_ok_iff]
    exact and_comm

/-- Witness for C4 at a below-minimum 2009 acs entry (excluded), an
unavailable entry (excluded by the iff) and a matching path (typed). -/
theorem c4_inclusion_rule_witness :
    ((extract_dataset_type ⟨some ["acs", "acs5"], none, none⟩).isSome = true ↔
      ∃ p ∈ PRIORITY_DATASETS,
        strContains (pyLower (String.intercalate "/" ["acs", "acs5"])) p.1 = true)
    ∧ should_include_dataset ⟨none, some (.pint 2021), some true⟩ = false
    ∧ (should_include_dataset ⟨some ["acs", "acs5"], some (.pint 2009), none⟩ = true ↔
        ((none : Option Bool).getD true = true ∧
         ∀ v, (some (.pint 2009) : Option PyVal) = some v → v.truthy = true →
           ∀ y, pyInt? v = some y → minYearOf "acs" ≤ y)) :=
  ⟨c4_inclusion_rule.1 ["acs", "acs5"] none none,
   c4_inclusion_rule.2.1 ⟨none, some (.pint 2021), some true⟩ (by decide),
   c4_inclusion_rule.2.2 ⟨some ["acs", "acs5"], some (.pint 2009), none⟩
     "acs" "acs/acs5" (by decide)⟩

/-- C5 is false as stated: the stable sort keeps a null-vintage
descriptor BEFORE a same-priority descriptor that has vintage 0, because
both carry the same key (priority, 0); so a null vintage does not sort
after every same-priority descriptor that has a vintage. -/
theorem c5_counterexample :
    sortCatalog [dNullVintage, dZeroVintage] = [dNullVintage, dZeroVintage]
    ∧ dNullVintage.vintage = none
    ∧ dZeroVintage.vintage = some 0
    ∧ dNullVintage.priority = dZeroVintage.priority := by
  refine ⟨List.mergeSort_of_sorted ?_, rfl, rfl, rfl⟩
  decide

/-- C5 (amended): the catalog sort is a permutation of its input, is
ordered by the key (priority, -vintage-or-0), is stable (any key-ordered
pair keeps its relative order), sorts ascending priority first, and
within a priority a null-vintage descriptor sorts after every descriptor
with a POSITIVE vintage (it ties with vintage 0, input order deciding). -/
theorem c5_sort_order :
    (∀ l : List Dataset, (sortCatalog l).Perm l)
    ∧ (∀ (l : List Dataset) (i j : Fin (sortCatalog l).length), i < j →
        keyLe ((sortCatalog l).get i) ((sortCatalog l).get j) = true)
    ∧ (∀ (l : List Dataset) (a b : Dataset), [a, b].Sublist l →
        keyLe a b = true → [a, b].Sublist (sortCatalog l))
    ∧ (∀ (l : List Dataset) (i j : Fin (sortCatalog l).length), i < j →
        ((sortCatalog l).get i).priority ≤ ((sortCatalog l).get j).priority)
    ∧ (∀ (l : List Dataset) (i j : Fin (sortCatalog l).length), i < j →
        ((sortCatalog l).get i).priority = ((sortCatalog l).get j).priority →
        ((sortCatalog l).get i).vintage = none →
        ∀ v : ℤ, ((sortCatalog l).get j).vintage = some v → v ≤ 0) := by
  have hget : ∀ (l : List Dataset) (i j : Fin (sortCatalog l).length), i < j →
      keyLe ((sortCatalog l).get i) ((sortCatalog l).get j) = true :=
    fun l => List.pairwise_iff_get.1 (sortCatalog_pairwise l)
  refine ⟨fun l => List.mergeSort_perm l keyLe, hget,
    fun l a b hsub hab => List.pair_sublist_mergeSort keyLe_trans keyLe_total hab hsub,
    fun l i j hij => ?_, fun l i j hij hpri hvi v hvj => ?_⟩
  · have h := hget l i j hij
    simp only [keyLe, decide_eq_true_eq, sortKey] at h
    omega
  · have h := hget l i j hij
    simp only [keyLe, decide_eq_true_eq, sortKey, hpri, hvi, hvj] at h
    by_cases hv0 : v = 0
    · omega
    · have hne : (v != 0) = true := by simp [bne, hv0]
      rw [if_pos hne] at h
      omega

/-- Witness for C5: stability at a two-element catalog with equal keys. -/
theorem c5_sort_order_witness :
    [dNullVintage, dZeroVintage].Sublist
      (sortCatalog [dNullVintage, dZeroVintage]) :=
  c5_sort_order.2.2.1 [dNullVintage, dZeroVintage] dNullVintage dZeroVintage
    (by decide) (by decide)

/-- C8 is false as stated: the traversal order does not put a null
vintage last — the sort key maps null and 0 vintages both to 0, so they
tie and input order decides, and the selection picks the null-vintage
dataset over a same-priority, same-type dataset that has vintage 0. -/
theorem c8_counterexample :
    datasets_to_process [dNullVintage, dZeroVintage] = [dNullVintage]
    ∧ dNullVintage.vintage = none
    ∧ dZeroVintage.vintage = some 0
    ∧ dNullVintage.priority = dZeroVintage.priority
    ∧ dNullVintage.dataset_type = dZeroVintage.dataset_type := by
  have hs : sortCatalog [dNullVintage, dZeroVintage] =
      [dNullVintage, dZeroVintage] := by
    refine List.mergeSort_of_sorted ?_
    decide
  refine ⟨?_, rfl, rfl, rfl, rfl⟩
  rw [datasets_to_process, hs]
  decide

/-- C8 (amended): process_data_fetcher selects by walking the catalog
sorted ascending by the key (priority, -vintage if vintage is truthy
else 0) — so within a priority positive vintages descend first and a
null vintage ties with vintage 0, input order deciding — keeping the
first dataset of each distinct type (the take-10 of the first-per-type
filter), selecting at most ten datasets, all of pairwise distinct
dataset types, in the sorted order. -/
theorem c8_dataset_selection :
    (∀ catalog : List Dataset,
      datasets_to_process catalog = (dedupByType (sortCatalog catalog) []).take 10)
    ∧ (∀ catalog : List Dataset, (datasets_to_process catalog).length ≤ 10)
    ∧ (∀ catalog : List Dataset, (datasets_to_process catalog).Pairwise
        (fun a b => a.dataset_type ≠ b.dataset_type))
    ∧ (∀ catalog : List Dataset,
        (datasets_to_process catalog).Sublist (sortCatalog catalog)) := by
  have heq : ∀ catalog : List Dataset,
      datasets_to_process catalog = (dedupByType (sortCatalog catalog) []).take 10 :=
    fun catalog => by
      simp [datasets_to_process, selectGo_eq (sortCatalog catalog) [] 0 (by decide)]
  refine ⟨heq, fun c => ?_, fun c => ?_, fun c => ?_⟩
  · rw [heq c]
    exact List.length_take_le 10 (dedupByType (sortCatalog c) [])
  · rw [heq c]
    exact ((dedupByType_spec (sortCatalog c) []).2).sublist
      (List.take_sublist 10 (dedupByType (sortCatalog c) []))
  · rw [heq c]
    exact (List.take_sublist 10 _).trans (dedupByType_sublist (sortCatalog c) [])

/-- C1 is false as stated: in the acs run with a 404 failure at 2020, the
years after 2020 are still attempted (a 2021 record exists) and the
persisted watermark ends at 2021, not at 2019. -/
theorem c1_counterexample :
    (process_acs acsFetch404 2018 2023).watermark = some 2021
    ∧ (process_acs acsFetch404 2018 2023).records.any (fun r => r.year == 2021) = true
    ∧ (acsTableStep acsFetch404 2020 "B01003" "Total Population").2 =
        some "404 Client Error: Not Found"
    ∧ strContains "404 Client Error: Not Found" "404" = true := by
  decide

/-- C1 (amended): in process_population and process_poverty each
successful year saves itself as the watermark (so a fully successful run
ends at the last year of the range) and a failed year — including a
not-yet-available fetch — leaves the watermark untouched while later
years are still attempted (the fold continues); in process_acs a
404-flagged failure skips only the remaining tables of that year, and
the year watermark is saved to each year whenever the run has
accumulated any records, even for the failed year itself. -/
theorem c1_watermark_behavior :
    (∀ (fetch : ℕ → Option (List (List Cell))) (ly cy : ℕ), ly + 1 < cy →
      (∀ y ∈ pyRange (ly + 1) cy, popYearOk fetch y = true) →
      (process_population fetch ly cy).watermark = some (cy - 1))
    ∧ (∀ (fetch : ℕ → Option (List (List Cell))) (st : TsState PopRecord)
        (y : ℕ), popYearOk fetch y = false →
        (popYearStep fetch st y).watermark = st.watermark)
    ∧ (∀ (fetch : ℕ → Option (List (List Cell))) (st : TsState PopRecord)
        (y : ℕ), popYearOk fetch y = true →
        (popYearStep fetch st y).watermark = some y)
    ∧ (∀ (fetch : ℕ → Option (List (List Cell))) (ly cy : ℕ), ly + 1 < cy →
      (∀ y ∈ pyRange (ly + 1) cy, povYearOk fetch y = true) →
      (process_poverty fetch ly cy).watermark = some (cy - 1))
    ∧ (∀ (fetch : ℕ → Option (List (List Cell))) (st : TsState PovRecord)
        (y : ℕ), povYearOk fetch y = false →
        (povYearStep fetch st y).watermark = st.watermark)
    ∧ (∀ (fetch : ℕ → Option (List (List Cell))) (st : TsState PovRecord)
        (y : ℕ), povYearOk fetch y = true →
        (povYearStep fetch st y).watermark = some y)
    ∧ (∀ (fetch : ℕ → String → Except String (List (List Cell))) (year : ℕ)
        (tid tname : String) (rest : List (String × String)) (e : String),
        (acsTableStep fetch year tid tname).2 = some e →
        strContains e "404" = true →
        acsTablesLoop fetch year ((tid, tname) :: rest) =
          (acsTableStep fetch year tid tname).1)
    ∧ (∀ (fetch : ℕ → String → Except String (List (List Cell)))
        (st : TsState AcsRecord) (year : ℕ),
        st.records ++ acsTablesLoop fetch year ACS_TABLES ≠ [] →
        (acsYearStep fetch st year).watermark = some year) := by
  refine ⟨?_, popYearStep_watermark_fail, popYearStep_watermark_ok,
    ?_, povYearStep_watermark_fail, povYearStep_watermark_ok,
    acsTablesLoop_break404, acsYearStep_watermark⟩
  · intro fetch ly cy hlt hall
    have hk : cy - (ly + 1) = (cy - (ly + 1) - 1) + 1 := by omega
    simp only [process_population, pyRange] at *
    rw [hk] at hall ⊢
    rw [popFold_watermark fetch _ _ hall]
    simp only [range'_getLast?_succ]
    congr 1
    omega
  · intro fetch ly cy hlt hall
    have hk : cy - (ly + 1) = (cy - (ly + 1) - 1) + 1 := by omega
    simp only [process_poverty, pyRange] at *
    rw [hk] at hall ⊢
    rw [povFold_watermark fetch _ _ hall]
    simp only [range'_getLast?_succ]
    congr 1
    omega

/-- Witness for C1 at concrete oracles: a fully successful two-year
population run ends at 2020; a failed year keeps the old watermark; a
successful year saves itself; the same for poverty; the acs 404 break
skips the remaining table; the acs year watermark advances once records
exist. -/
theorem c1_watermark_behavior_witness :
    (process_population popFetchOk 2018 2021).watermark = some 2020
    ∧ (popYearStep popFetchNone ⟨[], none⟩ 2019).watermark = none
    ∧ (popYearStep popFetchOk ⟨[], none⟩ 2019).watermark = some 2019
    ∧ (process_poverty povFetchOk 2018 2021).watermark = some 2020
    ∧ (povYearStep povFetchRaising ⟨[], none⟩ 2019).watermark = none
    ∧ (povYearStep povFetchOk ⟨[], none⟩ 2019).watermark = some 2019
    ∧ acsTablesLoop acsFetch404 2020
        [("B01003", "Total Population"), ("B25001", "Housing Units")] =
        (acsTableStep acsFetch404 2020 "B01003" "Total Population").1
    ∧ (acsYearStep acsFetch404 ⟨[], none⟩ 2019).watermark = some 2019 :=
  ⟨c1_watermark_behavior.1 popFetchOk 2018 2021 (by decide) (by decide),
   c1_watermark_behavior.2.1 popFetchNone ⟨[], none⟩ 2019 (by decide),
   c1_watermark_behavior.2.2.1 popFetchOk ⟨[], none⟩ 2019 (by decide),
   c1_watermark_behavior.2.2.2.1 povFetchOk 2018 2021 (by decide) (by decide),
   c1_watermark_behavior.2.2.2.2.1 povFetchRaising ⟨[], none⟩ 2019 (by decide),
   c1_watermark_behavior.2.2.2.2.2.1 povFetchOk ⟨[], none⟩ 2019 (by decide),
   c1_watermark_behavior.2.2.2.2.2.2.1 acsFetch404 2020 "B01003"
     "Total Population" [("B25001", "Housing Units")]
     "404 Client Error: Not Found" (by decide) (by decide),
   c1_watermark_behavior.2.2.2.2.2.2.2 acsFetch404 ⟨[], none⟩ 2019 (by decide)⟩

/-- C10: per-year poverty processing is not atomic — when a year's row
normalization raises partway (e.g. float("-") under the "." sentinel),
the records already built for that year are appended and survive into
the final result, while last_year_processed is not advanced by that
year. -/
theorem c10_poverty_partial_year :
    (∀ (fetch : ℕ → Option (List (List Cell))) (st : TsState PovRecord)
      (year : ℕ) (headers : List Cell) (rows : List (List Cell)),
      fetch year = some (headers :: rows) → rows ≠ [] →
      (povRowsLoop year headers rows).2 = true →
      (povYearStep fetch st year).records =
        st.records ++ (povRowsLoop year headers rows).1
      ∧ (povYearStep fetch st year).watermark = st.watermark)
    ∧ (∀ (fetch : ℕ → Option (List (List Cell))) (ys : List ℕ)
        (st : TsState PovRecord),
        st.records <+: (ys.foldl (povYearStep fetch) st).records) := by
  constructor
  · intro fetch st year headers rows hf hne hflag
    have hie : rows.isEmpty = false := List.isEmpty_eq_false.2 hne
    constructor
    · simp [povYearStep, hf, hie, hflag]
    · simp [povYearStep, hf, hie, hflag]
  · intro fetch ys
    induction ys with
    | nil => intro st; exact List.prefix_refl _
    | cons y ys ih =>
      intro st
      rw [List.foldl_cons]
      refine List.IsPrefix.trans ?_ (ih (povYearStep fetch st y))
      obtain ⟨tl, htl⟩ := povYearStep_records_append fetch st y
      rw [htl]
      exact List.prefix_append _ _

/-- Witness for C10 at the raising poverty response: the Alabama record
built before the raising Georgia row is kept, and the watermark is not
advanced. -/
theorem c10_poverty_partial_year_witness :
    ((povYearStep povFetchRaising ⟨[], none⟩ 2019).records =
      [] ++ (povRowsLoop 2019
        [some "NAME", some "SAEPOVRTALL_PT", some "SAEMHI_PT", some "state"]
        [[some "Alabama", some "13.6", some "52035", some "01"],
         [some "Georgia", some "-", some "55000", some "13"]]).1
    ∧ (povYearStep povFetchRaising ⟨[], none⟩ 2019).watermark = none)
    ∧ ([] : List PovRecord) <+:
        ([2019, 2020].foldl (povYearStep povFetchRaising) ⟨[], none⟩).records :=
  ⟨c10_poverty_partial_year.1 povFetchRaising ⟨[], none⟩ 2019
      [some "NAME", some "SAEPOVRTALL_PT", some "SAEMHI_PT", some "state"]
      [[some "Alabama", some "13.6", some "52035", some "01"],
       [some "Georgia", some "-", some "55000", some "13"]]
      (by decide) (by decide) (by decide),
   c10_poverty_partial_year.2 povFetchRaising [2019, 2020] ⟨[], none⟩⟩

end Census
